import Mathlib

/-!
Verification of the reaction-matching and dispatch core of hyde-ipc.

Strings from the Rust sources are modelled as `List Char`; Rust `String`
values appearing inside data (dispatcher names, arguments, window filters)
become `Chars := List Char`.  Machine counters (`AtomicUsize`) are modelled
as `Nat`; fixed-width integer parsing (`i16`/`i32`/`i64`/`u32`) is modelled
with explicit range checks matching Rust's `str::parse`.
-/

namespace HydeIpc

/-! ## Definitions: embeddings of the hyde-ipc data model and operations -/

/-- Characters of a Lean string literal; used to write Rust string
constants from the source. -/
def chars (s : String) : List Char := s.data

/-- Alias for the string model. -/
abbrev Chars := List Char

/-- Model of Rust `str::contains` (substring containment test), used by
`is_window_match` in `src/cli/src/reaction_handler.rs`. -/
def strContains (s p : Chars) : Bool :=
  if p.isPrefixOf s then true
  else
    match s with
    | [] => false
    | _ :: t => strContains t p

/-- Model of `hyprland::dispatch::WindowIdentifier`, the window-matcher
type used for `window_filter` (external crate type; constructors as used
by the sources). -/
inductive WindowIdentifier where
  | classRegularExpression (pattern : Chars)
  | title (pattern : Chars)
  | processId (pid : Nat)
  | address (addr : Chars)
  deriving DecidableEq, Repr

/-- `is_window_match` from `src/cli/src/reaction_handler.rs` (lines
456-467). -/
def is_window_match (filter : Option WindowIdentifier) (window_class window_title : Chars) :
    Bool :=
  match filter with
  | some (.classRegularExpression pattern) => strContains window_class pattern
  | some (.title pattern) => strContains window_title pattern
  | some _ => false
  | none => true

/-! ### Rust integer parsing and formatting

Models of Rust `str::parse::<iN>` / `str::parse::<uN>` (optional sign,
one or more ASCII digits, range check) and of decimal formatting. -/

/-- Value of an ASCII digit character, `none` for non-digits. -/
def digitVal (c : Char) : Option Nat :=
  if '0' ≤ c ∧ c ≤ '9' then some (c.toNat - '0'.toNat) else none

/-- Accumulate decimal digits; fails on the first non-digit. -/
def parseNatCore : Chars → Nat → Option Nat
  | [], acc => some acc
  | c :: cs, acc =>
    match digitVal c with
    | some d => parseNatCore cs (acc * 10 + d)
    | none => none

/-- Parse a non-empty all-digit string as a `Nat`. -/
def parseNatDigits : Chars → Option Nat
  | [] => none
  | c :: cs =>
    match digitVal c with
    | some d => parseNatCore cs d
    | none => none

/-- Range check for a parsed integer value. -/
def intInRange (lo hi v : Int) : Option Int :=
  if lo ≤ v ∧ v ≤ hi then some v else none

/-- Rust `str::parse` for signed integer types with bounds `[lo, hi]`. -/
def parseSigned (lo hi : Int) : Chars → Option Int
  | [] => none
  | c :: cs =>
    if c = '+' then (parseNatDigits cs).bind (fun n => intInRange lo hi (n : Int))
    else if c = '-' then (parseNatDigits cs).bind (fun n => intInRange lo hi (-(n : Int)))
    else (parseNatDigits (c :: cs)).bind (fun n => intInRange lo hi (n : Int))

/-- Rust `str::parse` for unsigned integer types with upper bound `hi`
(a leading `+` is accepted, a leading `-` is not). -/
def parseUnsigned (hi : Nat) : Chars → Option Nat
  | [] => none
  | c :: cs =>
    if c = '+' then (parseNatDigits cs).bind (fun n => if n ≤ hi then some n else none)
    else (parseNatDigits (c :: cs)).bind (fun n => if n ≤ hi then some n else none)

/-- `str::parse::<i16>`. -/
def parseI16 (s : Chars) : Option Int := parseSigned (-(2 ^ 15)) (2 ^ 15 - 1) s

/-- `str::parse::<i32>`. -/
def parseI32 (s : Chars) : Option Int := parseSigned (-(2 ^ 31)) (2 ^ 31 - 1) s

/-- `str::parse::<i64>`. -/
def parseI64 (s : Chars) : Option Int := parseSigned (-(2 ^ 63)) (2 ^ 63 - 1) s

/-- `str::parse::<i128>` (used for monitor ids in `MoveWindow`). -/
def parseI128 (s : Chars) : Option Int := parseSigned (-(2 ^ 127)) (2 ^ 127 - 1) s

/-- `str::parse::<u32>`. -/
def parseU32 (s : Chars) : Option Nat := parseUnsigned (2 ^ 32 - 1) s

/-- Decimal digit character for `d < 10`. -/
def decDigit (d : Nat) : Char := Char.ofNat (48 + d)

/-- Decimal representation of a `Nat`, most significant digit first
(model of Rust's `Display` for unsigned integers). -/
def natDecimal (n : Nat) : Chars :=
  if _h : n < 10 then [decDigit n]
  else natDecimal (n / 10) ++ [decDigit (n % 10)]
  decreasing_by exact Nat.div_lt_self (by omega) (by omega)

/-- Rust's `as i16` cast: wrap into `[-2^15, 2^15)`. -/
def wrapI16 (v : Int) : Int := (v + 2 ^ 15) % 2 ^ 16 - 2 ^ 15

/-- Model of Rust `str::strip_prefix`. -/
def stripPrefix : Chars → Chars → Option Chars
  | [], s => some s
  | _ :: _, [] => none
  | p :: ps, c :: cs => if p = c then stripPrefix ps cs else none

/-- `ParsedWindowIdentifier::from_str` from `src/cli/src/parsers.rs`
(lines 13-36); `parse_window_identifier` in `src/cli/src/dispatch.rs`
behaves identically apart from the error text. -/
def parseWindowIdentifier (s : Chars) : Except Chars WindowIdentifier :=
  match stripPrefix (chars "class:") s with
  | some cls => .ok (.classRegularExpression cls)
  | none =>
  match stripPrefix (chars "title:") s with
  | some t => .ok (.title t)
  | none =>
  match stripPrefix (chars "pid:") s with
  | some pidStr =>
    (match parseU32 pidStr with
     | some pid => .ok (.processId pid)
     | none => .error (chars "Invalid PID"))
  | none =>
  match stripPrefix (chars "address:") s with
  | some addr => .ok (.address addr)
  | none => .ok (.classRegularExpression s)

/-- Model of `hyprland::dispatch::WorkspaceIdentifierWithSpecial`
(external crate type; constructors as used by the sources). -/
inductive WorkspaceIdentifierWithSpecial where
  | id (n : Int)
  | relative (n : Int)
  | previous
  | empty
  | name (s : Chars)
  | special (s : Option Chars)
  deriving DecidableEq, Repr

/-- `ParsedWorkspaceIdentifier::from_str` from `src/cli/src/parsers.rs`
(lines 43-70).  Note the special case mapping `0` to the special
workspace. -/
def parseWorkspaceIdentifier (s : Chars) : Except Chars WorkspaceIdentifierWithSpecial :=
  match parseI32 s with
  | some n => if n = 0 then .ok (.special none) else .ok (.id n)
  | none =>
  match stripPrefix (chars "right:") s with
  | some numStr =>
    (match parseI32 numStr with
     | some num => .ok (.relative num)
     | none => .error (chars "Invalid number for right: " ++ numStr))
  | none =>
  match stripPrefix (chars "left:") s with
  | some numStr =>
    (match parseI32 numStr with
     | some num => .ok (.relative (-num))
     | none => .error (chars "Invalid number for left: " ++ numStr))
  | none =>
  if s = chars "previous" then .ok .previous
  else if s = chars "empty" then .ok .empty
  else
    match stripPrefix (chars "name:") s with
    | some n => .ok (.name n)
    | none => .error (chars "Unknown workspace identifier: " ++ s)

/-- The inline workspace-identifier parsing repeated in
`parse_dispatcher` in `src/cli/src/dispatch.rs` (lines 196-217, 221-242,
250-271): like `parseWorkspaceIdentifier` but with no special case for
`0`. -/
def parseWorkspaceFull (s : Chars) : Except Chars WorkspaceIdentifierWithSpecial :=
  match parseI32 s with
  | some n => .ok (.id n)
  | none =>
  match stripPrefix (chars "right:") s with
  | some numStr =>
    (match parseI32 numStr with
     | some num => .ok (.relative num)
     | none => .error (chars "Invalid number for right: " ++ numStr))
  | none =>
  match stripPrefix (chars "left:") s with
  | some numStr =>
    (match parseI32 numStr with
     | some num => .ok (.relative (-num))
     | none => .error (chars "Invalid number for left: " ++ numStr))
  | none =>
  if s = chars "previous" then .ok .previous
  else if s = chars "empty" then .ok .empty
  else
    match stripPrefix (chars "name:") s with
    | some n => .ok (.name n)
    | none => .error (chars "Unknown workspace identifier: " ++ s)

/-- The `WindowId` argument struct from `src/cli/src/flags.rs` (lines
208-217); the Rust field `class` is named `cls` here because `class` is
a Lean keyword. -/
structure WindowId where
  cls : Option Chars := none
  title : Option Chars := none
  pid : Option Nat := none
  address : Option Chars := none
  deriving DecidableEq, Repr

/-- `WindowId::to_identifier_string` from `src/cli/src/flags.rs` (lines
219-233). -/
def WindowId.to_identifier_string (w : WindowId) : Option Chars :=
  match w.cls with
  | some c => some (chars "class:" ++ c)
  | none =>
  match w.title with
  | some t => some (chars "title:" ++ t)
  | none =>
  match w.pid with
  | some p => some (chars "pid:" ++ natDecimal p)
  | none =>
  match w.address with
  | some a => some (chars "address:" ++ a)
  | none => none

/-! ### Dispatch command model

Types from `hyprland::dispatch` (external crate; constructors as used by
the sources) and the two revisions of the CLI `Dispatch` enum. -/

/-- `hyprland::dispatch::Direction`. -/
inductive Direction where
  | up | down | left | right
  deriving DecidableEq, Repr

/-- `hyprland::dispatch::Corner`. -/
inductive Corner where
  | topLeft | topRight | bottomLeft | bottomRight
  deriving DecidableEq, Repr

/-- `hyprland::dispatch::CycleDirection`. -/
inductive CycleDirection where
  | next | previous
  deriving DecidableEq, Repr

/-- `hyprland::dispatch::FullscreenType`. -/
inductive FullscreenType where
  | real | maximize | noParam
  deriving DecidableEq, Repr

/-- `hyprland::dispatch::MonitorIdentifier`. -/
inductive MonitorIdentifier where
  | name (s : Chars)
  | id (n : Int)
  | current
  | relative (n : Int)
  deriving DecidableEq, Repr

/-- `hyprland::dispatch::WindowMove`. -/
inductive WindowMove where
  | monitor (m : MonitorIdentifier)
  | direction (d : Direction)
  deriving DecidableEq, Repr

/-- `hyprland::dispatch::Position`. -/
inductive Position where
  | delta (dx dy : Int)
  | exact (width height : Int)
  deriving DecidableEq, Repr

/-- `hyprland::dispatch::DispatchType`, the validated command handed to
the compositor's dispatch transport (external crate type; constructors
as used by the sources). -/
inductive DispatchType where
  | exec (program : Chars)
  | killActiveWindow
  | toggleFloating (window : Option WindowIdentifier)
  | toggleSplit
  | toggleOpaque
  | moveCursorToCorner (corner : Corner)
  | moveCursor (x y : Int)
  | toggleFullscreen (mode : FullscreenType)
  | moveToWorkspace (workspace : WorkspaceIdentifierWithSpecial)
      (window : Option WindowIdentifier)
  | moveToWorkspaceSilent (workspace : WorkspaceIdentifierWithSpecial)
      (window : Option WindowIdentifier)
  | workspace (workspace : WorkspaceIdentifierWithSpecial)
  | cycleWindow (direction : CycleDirection)
  | moveFocus (direction : Direction)
  | swapWindow (direction : Direction)
  | moveWindow (target : WindowMove)
  | focusWindow (window : WindowIdentifier)
  | toggleFakeFullscreen
  | togglePseudo
  | togglePin
  | centerWindow
  | bringActiveToTop
  | focusUrgentOrLast
  | focusCurrentOrLast
  | forceRendererReload
  | exit
  | resizeActive (pos : Position)
  | resizeWindowPixel (pos : Position) (window : WindowIdentifier)
  deriving DecidableEq, Repr

/-- `ResizeCmd` from `src/cli/src/flags.rs` (lines 235-239); the `i16`
fields are modelled as `Int` (values produced by parsing are wrapped
into the `i16` range). -/
inductive ResizeCmd where
  | delta (dx dy : Int)
  | exact (width height : Int)
  deriving DecidableEq, Repr

/-- The current `Dispatch` CLI enum from `src/cli/src/flags.rs` (lines
241-342). -/
inductive Dispatch where
  | exec (command : List Chars)
  | killActiveWindow
  | toggleFloating (window : WindowId)
  | toggleSplit
  | toggleOpaque
  | moveCursorToCorner (corner : Chars)
  | moveCursor (x y : Int)
  | toggleFullscreen (mode : Chars)
  | moveToWorkspace (workspace : Chars)
  | moveToWorkspaceSilent (workspace : Chars) (window : WindowId)
  | workspace (workspace : Chars)
  | cycleWindow (direction : Chars)
  | moveFocus (direction : Chars)
  | moveWindow (target : Chars)
  | swapWindow (direction : Chars)
  | focusWindow (window : WindowId)
  | toggleFakeFullscreen
  | togglePseudo
  | togglePin
  | centerWindow
  | bringActiveToTop
  | focusUrgentOrLast
  | focusCurrentOrLast
  | forceRendererReload
  | exit
  | resizeActive (params : ResizeCmd)
  | resizeWindowPixel (params : ResizeCmd) (window : WindowId)
  deriving DecidableEq, Repr

/-- The `Dispatcher` reaction-chain element from
`src/cli/src/reaction_handler.rs` (lines 470-499). -/
inductive Dispatcher where
  | exec (args : List Chars)
  | killActiveWindow
  | toggleFloating (window : Option WindowId)
  | toggleSplit
  | toggleOpaque
  | moveCursorToCorner (corner : Chars)
  | moveCursor (x y : Int)
  | toggleFullscreen (mode : Option Chars)
  | moveToWorkspace (workspace : Chars)
  | moveToWorkspaceSilent (workspace : Chars) (window : Option WindowId)
  | workspace (workspace : Chars)
  | cycleWindow (direction : Option Chars)
  | moveFocus (direction : Chars)
  | swapWindow (direction : Chars)
  | focusWindow (window : WindowId)
  | moveWindow (target : Chars)
  | toggleFakeFullscreen
  | togglePseudo
  | togglePin
  | centerWindow
  | bringActiveToTop
  | focusUrgentOrLast
  | focusCurrentOrLast
  | forceRendererReload
  | exit
  | resizeActive (params : ResizeCmd)
  | resizeWindowPixel (params : ResizeCmd) (window : WindowId)
  deriving DecidableEq, Repr

/-- `impl From<Dispatcher> for Dispatch` from
`src/cli/src/reaction_handler.rs` (lines 629-671). -/
def Dispatcher.toDispatch : Dispatcher → Dispatch
  | .exec cmd => .exec cmd
  | .killActiveWindow => .killActiveWindow
  | .toggleFloating win => .toggleFloating (win.getD ({} : WindowId))
  | .toggleSplit => .toggleSplit
  | .toggleOpaque => .toggleOpaque
  | .moveCursorToCorner c => .moveCursorToCorner c
  | .moveCursor x y => .moveCursor x y
  | .toggleFullscreen m => .toggleFullscreen (m.getD (chars "noparam"))
  | .moveToWorkspace ws => .moveToWorkspace ws
  | .moveToWorkspaceSilent ws win =>
      .moveToWorkspaceSilent ws (win.getD ({} : WindowId))
  | .workspace ws => .workspace ws
  | .cycleWindow d => .cycleWindow (d.getD (chars "next"))
  | .moveFocus d => .moveFocus d
  | .swapWindow d => .swapWindow d
  | .focusWindow win => .focusWindow win
  | .moveWindow t => .moveWindow t
  | .toggleFakeFullscreen => .toggleFakeFullscreen
  | .togglePseudo => .togglePseudo
  | .togglePin => .togglePin
  | .centerWindow => .centerWindow
  | .bringActiveToTop => .bringActiveToTop
  | .focusUrgentOrLast => .focusUrgentOrLast
  | .focusCurrentOrLast => .focusCurrentOrLast
  | .forceRendererReload => .forceRendererReload
  | .exit => .exit
  | .resizeActive params => .resizeActive params
  | .resizeWindowPixel params window => .resizeWindowPixel params window

/-- Serde deserialization errors as produced by `Dispatcher::deserialize`
in `src/cli/src/reaction_handler.rs` (`invalid_length`, `custom`,
`unknown_field`, `unknown_variant`); `custom` payloads stand for the
underlying error's display text. -/
inductive DeError where
  | invalidLength (i : Nat)
  | custom (msg : Chars)
  | unknownField (f : Chars)
  | unknownVariant (v : Chars)
  deriving DecidableEq, Repr

/-- The name normalization applied by `Dispatcher::deserialize`
(`h.name.to_lowercase().replace('-', "")`); `to_lowercase` is modelled
per character (the dispatcher table is ASCII). -/
def rhNormalize (s : Chars) : Chars := (s.map Char.toLower).filter (fun c => c ≠ '-')

/-- `get_arg` in `Dispatcher::deserialize`. -/
def getArg (args : List Chars) (i : Nat) : Except DeError Chars :=
  match args.get? i with
  | some a => .ok a
  | none => .error (.invalidLength i)

/-- `parse_arg` in `Dispatcher::deserialize` (an `i64` parse, fixed by
the `MoveCursor` use of the closure). -/
def parseArgI64 (args : List Chars) (i : Nat) : Except DeError Int := do
  let s ← getArg args i
  match parseI64 s with
  | some v => pure v
  | none => .error (.custom (chars "invalid integer"))

/-- Rust `splitn(2, ':')`: split at the first colon, if any. -/
def splitFirstColon : Chars → Option (Chars × Chars)
  | [] => none
  | c :: cs =>
    if c = ':' then some ([], cs)
    else (splitFirstColon cs).map (fun p => (c :: p.1, p.2))

/-- `parse_window_id` in `Dispatcher::deserialize`. -/
def parseWindowIdArg (args : List Chars) (i : Nat) : Except DeError WindowId := do
  let s ← getArg args i
  match splitFirstColon s with
  | none => .error (.custom (chars "invalid window identifier format"))
  | some (k, v) =>
    if k = chars "class" then pure ({ cls := some v } : WindowId)
    else if k = chars "title" then pure ({ title := some v } : WindowId)
    else if k = chars "pid" then
      match parseU32 v with
      | some p => pure ({ pid := some p } : WindowId)
      | none => .error (.custom (chars "invalid PID"))
    else if k = chars "address" then pure ({ address := some v } : WindowId)
    else .error (.unknownField k)

/-- The `resize_type` parsing shared by the `resizeactive` and
`resizewindowpixel` arms of `Dispatcher::deserialize` (the `i64` parse
results are cast `as i16`, i.e. wrapped). -/
def parseResizeParams (args : List Chars) : Except DeError ResizeCmd := do
  let rt ← getArg args 0
  if rt = chars "exact" then do
    let w ← parseArgI64 args 1
    let h ← parseArgI64 args 2
    pure (.exact (wrapI16 w) (wrapI16 h))
  else if rt = chars "delta" then do
    let dx ← parseArgI64 args 1
    let dy ← parseArgI64 args 2
    pure (.delta (wrapI16 dx) (wrapI16 dy))
  else .error (.unknownVariant rt)

/-- The match arms of `Dispatcher::deserialize` from
`src/cli/src/reaction_handler.rs` (lines 501-626) for the normalized
name, with the final catch-all (the only arm that mentions the raw
name) factored out as `none`. -/
def buildCoreKnown (norm : Chars) (args : List Chars) : Option (Except DeError Dispatcher) :=
  if norm = chars "exec" then some (.ok (.exec args))
  else if norm = chars "killactivewindow" then some (.ok .killActiveWindow)
  else if norm = chars "togglefloating" then some (
    match args.head? with
    | some _ => (parseWindowIdArg args 0).map (fun w => .toggleFloating (some w))
    | none => .ok (.toggleFloating none))
  else if norm = chars "togglesplit" then some (.ok .toggleSplit)
  else if norm = chars "toggleopaque" then some (.ok .toggleOpaque)
  else if norm = chars "movecursortocorner" then
    some ((getArg args 0).map Dispatcher.moveCursorToCorner)
  else if norm = chars "movecursor" then some (do
    let x ← parseArgI64 args 0
    let y ← parseArgI64 args 1
    pure (.moveCursor x y))
  else if norm = chars "togglefullscreen" then some (.ok (.toggleFullscreen args.head?))
  else if norm = chars "movetoworkspace" then
    some ((getArg args 0).map Dispatcher.moveToWorkspace)
  else if norm = chars "movetoworkspacesilent" then some (do
    let ws ← getArg args 0
    match args.get? 1 with
    | some _ => do
        let win ← parseWindowIdArg args 1
        pure (.moveToWorkspaceSilent ws (some win))
    | none => pure (.moveToWorkspaceSilent ws none))
  else if norm = chars "workspace" then some ((getArg args 0).map Dispatcher.workspace)
  else if norm = chars "cyclewindow" then some (.ok (.cycleWindow args.head?))
  else if norm = chars "movefocus" then some ((getArg args 0).map Dispatcher.moveFocus)
  else if norm = chars "swapwindow" then some ((getArg args 0).map Dispatcher.swapWindow)
  else if norm = chars "focuswindow" then
    some ((parseWindowIdArg args 0).map Dispatcher.focusWindow)
  else if norm = chars "movewindow" then some ((getArg args 0).map Dispatcher.moveWindow)
  else if norm = chars "togglefakefullscreen" then some (.ok .toggleFakeFullscreen)
  else if norm = chars "togglepseudo" then some (.ok .togglePseudo)
  else if norm = chars "togglepin" then some (.ok .togglePin)
  else if norm = chars "centerwindow" then some (.ok .centerWindow)
  else if norm = chars "bringactivetotop" then some (.ok .bringActiveToTop)
  else if norm = chars "focusurgentorlast" then some (.ok .focusUrgentOrLast)
  else if norm = chars "focuscurrentorlast" then some (.ok .focusCurrentOrLast)
  else if norm = chars "forcerendererreload" then some (.ok .forceRendererReload)
  else if norm = chars "exit" then some (.ok .exit)
  else if norm = chars "resizeactive" then
    some ((parseResizeParams args).map Dispatcher.resizeActive)
  else if norm = chars "resizewindowpixel" then some (do
    let params ← parseResizeParams args
    let win ← parseWindowIdArg args 3
    pure (.resizeWindowPixel params win))
  else none

/-- `Dispatcher::deserialize` from `src/cli/src/reaction_handler.rs`
(lines 501-626): build a chain `Dispatcher` from a `{name, args}` helper
record; an unmatched normalized name is the `unknown_variant` error
naming the raw dispatcher name. -/
def Dispatcher.build (name : Chars) (args : List Chars) : Except DeError Dispatcher :=
  (buildCoreKnown (rhNormalize name) args).getD (.error (.unknownVariant name))

/-- The string-typed `Dispatch` CLI enum revision used by
`build_dispatch_cmd` / `parse_dispatcher` in `src/cli/src/dispatch.rs`
(the enum in `src/src/cli/flags.rs` lines 175-224, extended by the
`MoveToWorkspaceSilent` and `MoveWindow` variants those functions
handle). -/
inductive DispatchCmd where
  | exec (command : List Chars)
  | killActiveWindow
  | toggleFloating (window : Option Chars)
  | toggleSplit
  | toggleOpaque
  | moveCursorToCorner (corner : Chars)
  | moveCursor (x y : Int)
  | toggleFullscreen (mode : Chars)
  | moveToWorkspace (workspace : Chars)
  | moveToWorkspaceSilent (workspace : Chars) (window : Option Chars)
  | workspace (workspace : Chars)
  | cycleWindow (direction : Chars)
  | moveFocus (direction : Chars)
  | swapWindow (direction : Chars)
  | focusWindow (window : Chars)
  | moveWindow (target : Chars)
  | toggleFakeFullscreen
  | togglePseudo
  | togglePin
  | centerWindow
  | bringActiveToTop
  | focusUrgentOrLast
  | focusCurrentOrLast
  | forceRendererReload
  | exit
  | resizeActive (resize_params : List Chars)
  | resizeWindowPixel (resize_params : List Chars)
  deriving DecidableEq, Repr

/-- The match arms of `build_dispatch_cmd` from
`src/cli/src/dispatch.rs` (lines 8-88) for the lower-cased name, with
the final catch-all (the only arm that mentions the raw name) factored
out as `none`. -/
def bdcKnown (d : Chars) (args : List Chars) : Option (Except Chars DispatchCmd) :=
  if d = chars "exec" then some (.ok (.exec args))
  else if d = chars "killactivewindow" then some (.ok .killActiveWindow)
  else if d = chars "togglefloating" then some (.ok (.toggleFloating args.head?))
  else if d = chars "togglesplit" then some (.ok .toggleSplit)
  else if d = chars "toggleopaque" then some (.ok .toggleOpaque)
  else if d = chars "movecursortocorner" then
    some (.ok (.moveCursorToCorner (args.head?.getD [])))
  else if d = chars "movecursor" then some (
    match args with
    | [xs, ys] =>
      (match parseI64 xs with
       | some x =>
         (match parseI64 ys with
          | some y => .ok (.moveCursor x y)
          | none => .error (chars "Invalid y value"))
       | none => .error (chars "Invalid x value"))
    | _ => .error (chars "movecursor requires x and y arguments"))
  else if d = chars "togglefullscreen" then some (.ok (.toggleFullscreen (args.head?.getD [])))
  else if d = chars "movetoworkspace" then some (.ok (.moveToWorkspace (args.head?.getD [])))
  else if d = chars "workspace" then some (.ok (.workspace (args.head?.getD [])))
  else if d = chars "cyclewindow" then some (.ok (.cycleWindow (args.head?.getD [])))
  else if d = chars "movefocus" then some (.ok (.moveFocus (args.head?.getD [])))
  else if d = chars "swapwindow" then some (.ok (.swapWindow (args.head?.getD [])))
  else if d = chars "focuswindow" then some (.ok (.focusWindow (args.head?.getD [])))
  else if d = chars "togglefakefullscreen" then some (.ok .toggleFakeFullscreen)
  else if d = chars "togglepseudo" then some (.ok .togglePseudo)
  else if d = chars "togglepin" then some (.ok .togglePin)
  else if d = chars "centerwindow" then some (.ok .centerWindow)
  else if d = chars "bringactivetotop" then some (.ok .bringActiveToTop)
  else if d = chars "focusurgentorlast" then some (.ok .focusUrgentOrLast)
  else if d = chars "focuscurrentorlast" then some (.ok .focusCurrentOrLast)
  else if d = chars "forcerendererreload" then some (.ok .forceRendererReload)
  else if d = chars "exit" then some (.ok .exit)
  else if d = chars "resizeactive" then some (.ok (.resizeActive args))
  else if d = chars "resizewindowpixel" then some (.ok (.resizeWindowPixel args))
  else none

/-- `build_dispatch_cmd` from `src/cli/src/dispatch.rs` (lines 8-88):
name lookup after `to_lowercase()` only; most missing arguments default
to the empty string (`unwrap_or_default`); an unmatched name is the
unknown-dispatcher error naming the raw dispatcher name. -/
def build_dispatch_cmd (dispatcher : Chars) (args : List Chars) : Except Chars DispatchCmd :=
  (bdcKnown (dispatcher.map Char.toLower) args).getD
    (.error (chars "Unknown dispatcher: " ++ dispatcher))

/-- The match arms of `build_dispatch_cmd` from
`src/src/cli/react_config.rs` (lines 11-87) — exact (case-sensitive,
PascalCase) name matching, each arm an `Ok` command — with the final
catch-all factored out as `none`. -/
def rcKnown (dispatcher : Chars) (args : List Chars) : Option DispatchCmd :=
  if dispatcher = chars "Exec" then some (.exec args)
  else if dispatcher = chars "KillActiveWindow" then some .killActiveWindow
  else if dispatcher = chars "ToggleFloating" then some (.toggleFloating args.head?)
  else if dispatcher = chars "ToggleSplit" then some .toggleSplit
  else if dispatcher = chars "ToggleOpaque" then some .toggleOpaque
  else if dispatcher = chars "MoveCursorToCorner" then
    some (.moveCursorToCorner (args.head?.getD []))
  else if dispatcher = chars "ToggleFullscreen" then
    some (.toggleFullscreen (args.head?.getD []))
  else if dispatcher = chars "MoveToWorkspace" then
    some (.moveToWorkspace (args.head?.getD []))
  else if dispatcher = chars "Workspace" then some (.workspace (args.head?.getD []))
  else if dispatcher = chars "CycleWindow" then some (.cycleWindow (args.head?.getD []))
  else if dispatcher = chars "MoveFocus" then some (.moveFocus (args.head?.getD []))
  else if dispatcher = chars "SwapWindow" then some (.swapWindow (args.head?.getD []))
  else if dispatcher = chars "FocusWindow" then some (.focusWindow (args.head?.getD []))
  else if dispatcher = chars "ToggleFakeFullscreen" then some .toggleFakeFullscreen
  else if dispatcher = chars "TogglePseudo" then some .togglePseudo
  else if dispatcher = chars "TogglePin" then some .togglePin
  else if dispatcher = chars "CenterWindow" then some .centerWindow
  else if dispatcher = chars "BringActiveToTop" then some .bringActiveToTop
  else if dispatcher = chars "FocusUrgentOrLast" then some .focusUrgentOrLast
  else if dispatcher = chars "FocusCurrentOrLast" then some .focusCurrentOrLast
  else if dispatcher = chars "ForceRendererReload" then some .forceRendererReload
  else if dispatcher = chars "Exit" then some .exit
  else if dispatcher = chars "ResizeActive" then some (.resizeActive args)
  else if dispatcher = chars "ResizeWindowPixel" then some (.resizeWindowPixel args)
  else none

/-- `build_dispatch_cmd` from `src/src/cli/react_config.rs` (lines
11-87): an unmatched name is the unknown-dispatcher error naming the
raw dispatcher name. -/
def rcBuildDispatchCmd (dispatcher : Chars) (args : List Chars) : Except Chars DispatchCmd :=
  match rcKnown dispatcher args with
  | some cmd => .ok cmd
  | none => .error (chars "Unknown dispatcher: " ++ dispatcher)

/-- Rust `Vec::join(" ")` for string vectors. -/
def joinSpaces (xs : List Chars) : Chars := List.intercalate (chars " ") xs

/-- `parse_dispatcher` from `src/cli/src/dispatch.rs` (lines 159-411):
turn a `DispatchCmd` into a validated `DispatchType` for the dispatch
transport. -/
def parse_dispatcher : DispatchCmd → Except Chars DispatchType
  | .exec cmd => .ok (.exec (joinSpaces cmd))
  | .killActiveWindow => .ok .killActiveWindow
  | .toggleFloating win =>
    match win with
    | none => .ok (.toggleFloating none)
    | some identifier =>
      (parseWindowIdentifier identifier).map (fun w => .toggleFloating (some w))
  | .toggleSplit => .ok .toggleSplit
  | .toggleOpaque => .ok .toggleOpaque
  | .moveCursorToCorner c =>
    if c = chars "TopLeft" then .ok (.moveCursorToCorner .topLeft)
    else if c = chars "TopRight" then .ok (.moveCursorToCorner .topRight)
    else if c = chars "BottomLeft" then .ok (.moveCursorToCorner .bottomLeft)
    else if c = chars "BottomRight" then .ok (.moveCursorToCorner .bottomRight)
    else .error (chars "Unknown corner: " ++ c)
  | .moveCursor x y => .ok (.moveCursor x y)
  | .toggleFullscreen m =>
    if m = chars "Real" then .ok (.toggleFullscreen .real)
    else if m = chars "Maximize" then .ok (.toggleFullscreen .maximize)
    else if m = chars "NoParam" then .ok (.toggleFullscreen .noParam)
    else .error (chars "Unknown fullscreen type: " ++ m)
  | .moveToWorkspace ws =>
    (parseWorkspaceFull ws).map (fun w => .moveToWorkspace w none)
  | .moveToWorkspaceSilent ws win => do
    let w ← parseWorkspaceFull ws
    match win with
    | some s => do
        let wi ← parseWindowIdentifier s
        pure (.moveToWorkspaceSilent w (some wi))
    | none => pure (.moveToWorkspaceSilent w none)
  | .workspace ws => (parseWorkspaceFull ws).map DispatchType.workspace
  | .cycleWindow dir =>
    let d := dir.map Char.toLower
    if d = chars "next" then .ok (.cycleWindow .next)
    else if d = chars "previous" then .ok (.cycleWindow .previous)
    else .error (chars "Unknown cycle direction: " ++ dir)
  | .moveFocus dir =>
    let d := dir.map Char.toLower
    if d = chars "up" then .ok (.moveFocus .up)
    else if d = chars "down" then .ok (.moveFocus .down)
    else if d = chars "left" then .ok (.moveFocus .left)
    else if d = chars "right" then .ok (.moveFocus .right)
    else .error (chars "Unknown direction: " ++ dir)
  | .swapWindow dir =>
    let d := dir.map Char.toLower
    if d = chars "up" then .ok (.swapWindow .up)
    else if d = chars "down" then .ok (.swapWindow .down)
    else if d = chars "left" then .ok (.swapWindow .left)
    else if d = chars "right" then .ok (.swapWindow .right)
    else .error (chars "Unknown direction: " ++ dir)
  | .moveWindow target =>
    match stripPrefix (chars "mon:") target with
    | some mname => .ok (.moveWindow (.monitor (.name mname)))
    | none =>
    match parseI128 target with
    | some mid => .ok (.moveWindow (.monitor (.id mid)))
    | none =>
    if target.map Char.toLower = chars "current" then .ok (.moveWindow (.monitor .current))
    else
    match parseI32 target with
    | some rel => .ok (.moveWindow (.monitor (.relative rel)))
    | none =>
    match stripPrefix (chars "dir:") (target.map Char.toLower) with
    | some dirStr =>
      if dirStr = chars "up" then .ok (.moveWindow (.direction .up))
      else if dirStr = chars "down" then .ok (.moveWindow (.direction .down))
      else if dirStr = chars "left" then .ok (.moveWindow (.direction .left))
      else if dirStr = chars "right" then .ok (.moveWindow (.direction .right))
      else .error (chars "Unknown direction for MoveWindow: " ++ dirStr)
    | none => .error (chars "Unknown target for MoveWindow: " ++ target)
  | .focusWindow w => (parseWindowIdentifier w).map DispatchType.focusWindow
  | .toggleFakeFullscreen => .ok .toggleFakeFullscreen
  | .togglePseudo => .ok .togglePseudo
  | .togglePin => .ok .togglePin
  | .centerWindow => .ok .centerWindow
  | .bringActiveToTop => .ok .bringActiveToTop
  | .focusUrgentOrLast => .ok .focusUrgentOrLast
  | .focusCurrentOrLast => .ok .focusCurrentOrLast
  | .forceRendererReload => .ok .forceRendererReload
  | .exit => .ok .exit
  | .resizeActive ps =>
    match ps with
    | [] =>
      .error (chars
        "ResizeActive requires a position argument: either <dx> <dy> or exact <width> <height>")
    | a0 :: rest =>
      if a0 = chars "exact" then
        match rest with
        | [w, h] =>
          (match parseI16 w with
           | some wi =>
             (match parseI16 h with
              | some hi => .ok (.resizeActive (.exact wi hi))
              | none => .error (chars "Invalid height: " ++ h))
           | none => .error (chars "Invalid width: " ++ w))
        | _ => .error (chars "ResizeActive exact requires two arguments: <width> <height>")
      else
        match a0 :: rest with
        | [dxs, dys] =>
          (match parseI16 dxs with
           | some dx =>
             (match parseI16 dys with
              | some dy => .ok (.resizeActive (.delta dx dy))
              | none => .error (chars "Invalid dy: " ++ dys))
           | none => .error (chars "Invalid dx: " ++ dxs))
        | _ =>
          .error (chars
            "ResizeActive requires either two arguments (<dx> <dy>) or 'exact <width> <height>'")
  | .resizeWindowPixel ps =>
    match ps with
    | [] =>
      .error (chars
        "ResizeWindowPixel requires a position and window argument: either <dx> <dy> <win> or exact <width> <height> <win>")
    | a0 :: rest =>
      if a0 = chars "exact" then
        match rest with
        | [w, h, ws] =>
          (match parseI16 w with
           | some wi =>
             (match parseI16 h with
              | some hi =>
                (parseWindowIdentifier ws).map
                  (fun wid => .resizeWindowPixel (.exact wi hi) wid)
              | none => .error (chars "Invalid height: " ++ h))
           | none => .error (chars "Invalid width: " ++ w))
        | _ =>
          .error (chars "ResizeWindowPixel exact requires three arguments: <width> <height> <win>")
      else
        match a0 :: rest with
        | [dxs, dys, ws] =>
          (match parseI16 dxs with
           | some dx =>
             (match parseI16 dys with
              | some dy =>
                (parseWindowIdentifier ws).map
                  (fun wid => .resizeWindowPixel (.delta dx dy) wid)
              | none => .error (chars "Invalid dy: " ++ dys))
           | none => .error (chars "Invalid dx: " ++ dxs))
        | _ =>
          .error (chars
            "ResizeWindowPixel requires either three arguments (<dx> <dy> <win>) or 'exact <width> <height> <win>'")

/-! ### Reactions and their trigger operation (both revisions) -/

/-- `WindowEventType` (identical in `src/cli/src/reaction_handler.rs`
and `src/src/cli/react_config.rs`). -/
inductive WindowEventType where
  | opened | closed | moved | active
  deriving DecidableEq, Repr

/-- `WorkspaceEventType`. -/
inductive WorkspaceEventType where
  | changed | added | deleted
  deriving DecidableEq, Repr

/-- `GroupEventType`. -/
inductive GroupEventType where
  | toggled | movedIn | movedOut
  deriving DecidableEq, Repr

/-- `EventType`. -/
inductive EventType where
  | window (subtype : WindowEventType)
  | workspace (subtype : WorkspaceEventType)
  | monitor
  | float
  | fullscreen
  | layout
  | group (subtype : GroupEventType)
  | config
  deriving DecidableEq, Repr

/-- The error string returned by both `execute` revisions on an empty
chain. -/
def noDispatchersMsg : Chars := chars "No dispatchers defined for this reaction"

/-- The `Reaction` struct from `src/cli/src/reaction_handler.rs` (lines
216-232); the shared `counter: Arc<AtomicUsize>` is modelled as explicit
`Nat` state threaded through `execute`. -/
structure RHReaction where
  event_type : EventType
  dispatchers : List Dispatcher := []
  window_filter : Option WindowIdentifier := none
  max_count : Option Nat := none
  name : Option Chars := none
  description : Option Chars := none
  deriving DecidableEq, Repr

instance {ε α : Type} [DecidableEq ε] [DecidableEq α] : DecidableEq (Except ε α) := fun x y =>
  match x, y with
  | .ok a, .ok b =>
    if h : a = b then isTrue (h ▸ rfl) else isFalse (fun hh => h (Except.ok.inj hh))
  | .error a, .error b =>
    if h : a = b then isTrue (h ▸ rfl) else isFalse (fun hh => h (Except.error.inj hh))
  | .ok _, .error _ => isFalse Except.noConfusion
  | .error _, .ok _ => isFalse Except.noConfusion

/-- Outcome of one `Reaction::execute` call in the
`reaction_handler.rs` revision: the returned `Result<bool, String>`, the
counter value afterwards, and the commands handed to `handle_dispatch`
(the dispatch transport), in order. -/
structure RHExecOut where
  result : Except Chars Bool
  counter : Nat
  events : List Dispatch
  deriving DecidableEq, Repr

/-- The non-suppressed tail of `Reaction::execute`
(`reaction_handler.rs` lines 249-267): empty-chain check, then one
`handle_dispatch` call per dispatcher in order. -/
def rhChainRun (r : RHReaction) (c : Nat) : RHExecOut :=
  if r.dispatchers.isEmpty then
    { result := .error noDispatchersMsg, counter := c, events := [] }
  else
    { result := .ok true, counter := c, events := r.dispatchers.map Dispatcher.toDispatch }

/-- `Reaction::execute` from `src/cli/src/reaction_handler.rs` (lines
234-268), as a function of the counter value before the call. -/
def RHReaction.execute (r : RHReaction) (counter : Nat) : RHExecOut :=
  let maxCount := r.max_count.getD 0
  if 0 < maxCount then
    if counter + 1 > maxCount then
      { result := .ok false, counter := counter + 1, events := [] }
    else rhChainRun r (counter + 1)
  else rhChainRun r counter

/-- Counter value after `k` consecutive `execute` calls starting from a
fresh (zero) counter. -/
def rhCounterAfter (r : RHReaction) : Nat → Nat
  | 0 => 0
  | k + 1 => (r.execute (rhCounterAfter r k)).counter

/-- Outcome of call number `k + 1` in a fresh call sequence. -/
def rhCall (r : RHReaction) (k : Nat) : RHExecOut := r.execute (rhCounterAfter r k)

/-- A `{name, args}` chain entry (`Dispatcher` struct) from
`src/src/cli/react_config.rs` (lines 217-225). -/
structure RCDispatcher where
  name : Chars
  args : List Chars := []
  deriving DecidableEq, Repr

/-- The `Reaction` struct from `src/src/cli/react_config.rs` (lines
191-215), with the legacy `dispatcher`/`args` fields. -/
structure RCReaction where
  event_type : EventType
  dispatcher : Option Chars := none
  args : List Chars := []
  dispatchers : List RCDispatcher := []
  window_filter : Option Chars := none
  max_count : Option Nat := none
  name : Option Chars := none
  description : Option Chars := none
  deriving DecidableEq, Repr

/-- The `all_dispatchers` list built by `Reaction::execute` in
`react_config.rs` (lines 250-262): the legacy dispatcher, if set, is
prepended before the `dispatchers` list. -/
def RCReaction.allDispatchers (r : RCReaction) : List RCDispatcher :=
  (match r.dispatcher with
   | some d => [{ name := d, args := r.args }]
   | none => []) ++ r.dispatchers

/-- Outcome of one `Reaction::execute` call in the `react_config.rs`
revision: the returned `Result<bool, String>`, the counter afterwards,
and the validated commands handed to `Dispatch::call` (the dispatch
transport), in order. -/
structure RCExecOut where
  result : Except Chars Bool
  counter : Nat
  events : List DispatchType
  deriving DecidableEq, Repr

/-- The dispatcher loop of `react_config.rs` `execute` (lines 274-295):
a `build_dispatch_cmd` failure is propagated with `?` and halts the
chain; a `parse_dispatcher` failure (and any transport failure) is
logged and the chain continues. -/
def rcChainStep : List RCDispatcher → Except Chars Unit × List DispatchType
  | [] => (.ok (), [])
  | d :: rest =>
    match rcBuildDispatchCmd d.name d.args with
    | .error e => (.error e, [])
    | .ok cmd =>
      let out := rcChainStep rest
      match parse_dispatcher cmd with
      | .ok dt => (out.1, dt :: out.2)
      | .error _ => out

/-- The body of `react_config.rs` `execute` after the initial limit
check; `current` is the post-increment counter value (0 when no limit is
set), used again by the final limit check. -/
def rcBody (r : RCReaction) (newCounter current maxCount : Nat) : RCExecOut :=
  let all := r.allDispatchers
  if all.isEmpty then
    { result := .error noDispatchersMsg, counter := newCounter, events := [] }
  else
    let out := rcChainStep all
    match out.1 with
    | .error e => { result := .error e, counter := newCounter, events := out.2 }
    | .ok _ =>
      if 0 < maxCount ∧ maxCount ≤ current then
        { result := .ok false, counter := newCounter, events := out.2 }
      else
        { result := .ok true, counter := newCounter, events := out.2 }

/-- `Reaction::execute` from `src/src/cli/react_config.rs` (lines
227-305), as a function of the shared counter value before the call. -/
def RCReaction.execute (r : RCReaction) (counter : Nat) : RCExecOut :=
  let maxCount := r.max_count.getD 0
  if 0 < maxCount then
    if counter + 1 > maxCount then
      { result := .ok false, counter := counter + 1, events := [] }
    else rcBody r (counter + 1) (counter + 1) maxCount
  else rcBody r counter 0 maxCount

/-- Counter value after `k` consecutive `execute` calls starting from
the fresh counter `add_reaction` creates. -/
def rcCounterAfter (r : RCReaction) : Nat → Nat
  | 0 => 0
  | k + 1 => (r.execute (rcCounterAfter r k)).counter

/-- Outcome of call number `k + 1` in a fresh call sequence. -/
def rcCall (r : RCReaction) (k : Nat) : RCExecOut := r.execute (rcCounterAfter r k)

/-! ### Reaction manager registrations -/

/-- The event-listener registration slots (`add_*_handler` functions of
`hyprland::event_listener::EventListener`) used by `setup_handler`. -/
inductive HandlerSlot where
  | windowOpened
  | windowClosed
  | windowMoved
  | activeWindowChanged
  | workspaceChanged
  | workspaceAdded
  | workspaceDeleted
  | activeMonitorChanged
  | floatStateChanged
  | fullscreenStateChanged
  | layoutChanged
  | groupToggled
  | windowMovedIntoGroup
  | windowMovedOutOfGroup
  | configReloaded
  deriving DecidableEq, Repr

/-- The listener slot `setup_handler` registers on for a given event
type (`src/cli/src/reaction_handler.rs` lines 315-453; the
`react_config.rs` revision maps event types to the same slots). -/
def slotOf : EventType → HandlerSlot
  | .window .opened => .windowOpened
  | .window .closed => .windowClosed
  | .window .moved => .windowMoved
  | .window .active => .activeWindowChanged
  | .workspace .changed => .workspaceChanged
  | .workspace .added => .workspaceAdded
  | .workspace .deleted => .workspaceDeleted
  | .monitor => .activeMonitorChanged
  | .float => .floatStateChanged
  | .fullscreen => .fullscreenStateChanged
  | .layout => .layoutChanged
  | .group .toggled => .groupToggled
  | .group .movedIn => .windowMovedIntoGroup
  | .group .movedOut => .windowMovedOutOfGroup
  | .config => .configReloaded

/-- The handler registrations `ReactionManager::start` performs
(`src/cli/src/reaction_handler.rs` lines 302-341): it iterates over the
reactions in order and calls `setup_handler` — one `add_*_handler`
registration — for each one. -/
def registrations (reactions : List RHReaction) : List HandlerSlot :=
  reactions.map (fun r => slotOf r.event_type)

/-- A one-shot single-dispatcher reaction in the config-file revision
(used as a concrete test input). -/
def rcOneShot : RCReaction :=
  { event_type := .config, dispatchers := [{ name := chars "Exit" }], max_count := some 1 }

/-- A two-shot single-dispatcher reaction in the current revision. -/
def rhTwoShot : RHReaction :=
  { event_type := .config, dispatchers := [.exit], max_count := some 2 }

/-- A two-shot single-dispatcher reaction in the config-file revision. -/
def rcTwoShot : RCReaction :=
  { event_type := .config, dispatchers := [{ name := chars "Exit" }], max_count := some 2 }

/-- An empty-chain reaction with `max_count = 1` (concrete test input). -/
def rhEmptyOneShot : RHReaction := { event_type := .config, max_count := some 1 }

/-- A config-file-revision chain whose first entry fails to build
(unknown dispatcher name) while its second entry is valid. -/
def rcBadChain : RCReaction :=
  { event_type := .config,
    dispatchers := [{ name := chars "Foo" }, { name := chars "Exit" }] }

/-- A config-file-revision chain whose first entry builds but fails to
parse (invalid direction) while its second entry is valid. -/
def rcSkipChain : RCReaction :=
  { event_type := .config,
    dispatchers := [{ name := chars "MoveFocus", args := [chars "x"] },
                    { name := chars "Exit" }] }

/-! ### Claim theorems: dispatcher name lookup and arguments -/

/-- The normalization the claim describes (lower-case and strip both
`-` and `_`), written from the spec's words for comparison with the
source's normalization. -/
def specNormalize (s : Chars) : Chars :=
  (s.map Char.toLower).filter (fun c => c != '-' && c != '_')

/-! ### Claim theorems: manager registrations and legacy fields -/

/-- Inverse of `slotOf` (the slot map is a bijection onto the used
slots). -/
def invSlot : HandlerSlot → EventType
  | .windowOpened => .window .opened
  | .windowClosed => .window .closed
  | .windowMoved => .window .moved
  | .activeWindowChanged => .window .active
  | .workspaceChanged => .workspace .changed
  | .workspaceAdded => .workspace .added
  | .workspaceDeleted => .workspace .deleted
  | .activeMonitorChanged => .monitor
  | .floatStateChanged => .float
  | .fullscreenStateChanged => .fullscreen
  | .layoutChanged => .layout
  | .groupToggled => .group .toggled
  | .windowMovedIntoGroup => .group .movedIn
  | .windowMovedOutOfGroup => .group .movedOut
  | .configReloaded => .config

/-- Two distinct reactions on the same event type (concrete test
input). -/
def rcfgA : RHReaction := { event_type := .config }

/-- A second reaction on the same event type. -/
def rcfgB : RHReaction := { event_type := .config, name := some (chars "b") }

/-- A reaction using only the legacy `dispatcher` field (concrete test
input). -/
def rcLegacyOnly : RCReaction := { event_type := .config, dispatcher := some (chars "Exit") }

/-- The `WindowId` value carrying exactly the discriminant of a window
matcher (glue between the matcher type and the CLI argument struct the
renderer is defined on). -/
def matcherWindowId : WindowIdentifier → WindowId
  | .classRegularExpression c => { cls := some c }
  | .title t => { title := some t }
  | .processId p => { pid := some p }
  | .address a => { address := some a }

/-- The canonical prefixed rendering of a window matcher, per
`WindowId::to_identifier_string`. -/
def canonicalMatcherString : WindowIdentifier → Chars
  | .classRegularExpression c => chars "class:" ++ c
  | .title t => chars "title:" ++ t
  | .processId p => chars "pid:" ++ natDecimal p
  | .address a => chars "address:" ++ a

/-- A matcher whose PID (if any) fits in a `u32`. -/
def pidInRange : WindowIdentifier → Bool
  | .processId p => decide (p < 2 ^ 32)
  | _ => true

/-! ## Theorems -/

/-- `strContains` decides the sublist (infix) relation. -/
theorem strContains_iff_infix (s p : Chars) : strContains s p = true ↔ p <:+: s := by
  induction s with
  | nil =>
      rw [strContains]
      constructor
      · intro h
        by_cases hp : p.isPrefixOf ([] : Chars) = true
        · exact (List.isPrefixOf_iff_prefix.mp hp).isInfix
        · rw [if_neg hp] at h
          simp at h
      · intro h
        have hnil : p = [] := List.eq_nil_of_infix_nil h
        subst hnil
        simp [List.isPrefixOf]
  | cons a t ih =>
      rw [strContains]
      by_cases hp : p.isPrefixOf (a :: t) = true
      · rw [if_pos hp]
        simp only [true_iff]
        exact (List.isPrefixOf_iff_prefix.mp hp).isInfix
      · rw [if_neg hp, ih]
        constructor
        · intro h
          exact h.trans (List.suffix_cons a t).isInfix
        · intro h
          rcases (List.infix_cons_iff).mp h with h' | h'
          · exact absurd (List.isPrefixOf_iff_prefix.mpr h') hp
          · exact h'

/-! ### Decimal parse/print round-trip lemmas -/

theorem digitVal_decDigit : ∀ d, d < 10 → digitVal (decDigit d) = some d := by decide

theorem decDigit_ne_plus : ∀ d, d < 10 → decDigit d ≠ '+' := by decide

theorem parseNatCore_append (s t : Chars) (acc : Nat) :
    parseNatCore (s ++ t) acc =
      match parseNatCore s acc with
      | some m => parseNatCore t m
      | none => none := by
  induction s generalizing acc with
  | nil => rfl
  | cons c cs ih =>
      cases h : digitVal c with
      | some d =>
          simp only [List.cons_append, parseNatCore, h]
          exact ih (acc * 10 + d)
      | none => simp only [List.cons_append, parseNatCore, h]

theorem parseNatCore_natDecimal_zero (n : Nat) : parseNatCore (natDecimal n) 0 = some n := by
  induction n using Nat.strong_induction_on with
  | _ n ih =>
      rw [natDecimal]
      by_cases h : n < 10
      · rw [dif_pos h]
        simp [parseNatCore, digitVal_decDigit n h]
      · rw [dif_neg h]
        rw [parseNatCore_append]
        rw [ih (n / 10) (Nat.div_lt_self (by omega) (by omega))]
        simp only [parseNatCore, digitVal_decDigit (n % 10) (Nat.mod_lt n (by omega))]
        congr 1
        omega

/-- The decimal rendering starts with a digit character. -/
theorem natDecimal_shape (n : Nat) :
    ∃ d cs, natDecimal n = decDigit d :: cs ∧ d < 10 := by
  induction n using Nat.strong_induction_on with
  | _ n ih =>
      rw [natDecimal]
      by_cases h : n < 10
      · exact ⟨n, [], by rw [dif_pos h], h⟩
      · obtain ⟨d, cs, hshape, hd⟩ := ih (n / 10) (Nat.div_lt_self (by omega) (by omega))
        exact ⟨d, cs ++ [decDigit (n % 10)], by rw [dif_neg h, hshape]; rfl, hd⟩

theorem parseNatDigits_natDecimal (n : Nat) : parseNatDigits (natDecimal n) = some n := by
  obtain ⟨d, cs, hshape, hd⟩ := natDecimal_shape n
  have h0 := parseNatCore_natDecimal_zero n
  rw [hshape] at h0 ⊢
  simp only [parseNatCore, digitVal_decDigit d hd, Nat.zero_mul, Nat.zero_add] at h0
  simp only [parseNatDigits, digitVal_decDigit d hd]
  exact h0

theorem parseU32_natDecimal (p : Nat) (hp : p < 2 ^ 32) :
    parseU32 (natDecimal p) = some p := by
  obtain ⟨d, cs, hshape, hd⟩ := natDecimal_shape p
  have h := parseNatDigits_natDecimal p
  rw [hshape] at h ⊢
  simp only [parseU32, parseUnsigned, if_neg (decDigit_ne_plus d hd), h, Option.some_bind]
  rw [if_pos (by omega)]

/-! ### Execution lemmas -/

theorem rhChainRun_counter (r : RHReaction) (c : Nat) : (rhChainRun r c).counter = c := by
  rw [rhChainRun]
  split <;> rfl

theorem rhExecute_counter (r : RHReaction) (N c : Nat) (hmax : r.max_count = some N)
    (hN : 0 < N) : (r.execute c).counter = c + 1 := by
  simp only [RHReaction.execute, hmax, Option.getD_some, if_pos hN]
  split
  · rfl
  · exact rhChainRun_counter r (c + 1)

theorem rhCounterAfter_eq (r : RHReaction) (N : Nat) (hmax : r.max_count = some N)
    (hN : 0 < N) : ∀ k, rhCounterAfter r k = k := by
  intro k
  induction k with
  | zero => rfl
  | succ k ih => rw [rhCounterAfter, ih, rhExecute_counter r N _ hmax hN]

theorem rcBody_counter (r : RCReaction) (nc cur mx : Nat) :
    (rcBody r nc cur mx).counter = nc := by
  rw [rcBody]
  split
  · rfl
  · cases h : (rcChainStep r.allDispatchers).1 with
    | error e => simp only [h]
    | ok a =>
        simp only [h]
        split <;> rfl

theorem rcExecute_counter (r : RCReaction) (N c : Nat) (hmax : r.max_count = some N)
    (hN : 0 < N) : (r.execute c).counter = c + 1 := by
  simp only [RCReaction.execute, hmax, Option.getD_some, if_pos hN]
  split
  · rfl
  · exact rcBody_counter r (c + 1) (c + 1) N

theorem rcCounterAfter_eq (r : RCReaction) (N : Nat) (hmax : r.max_count = some N)
    (hN : 0 < N) : ∀ k, rcCounterAfter r k = k := by
  intro k
  induction k with
  | zero => rfl
  | succ k ih => rw [rcCounterAfter, ih, rcExecute_counter r N _ hmax hN]

/-! ### Claim theorems: trigger limits and chains -/

/-- C1 counterexample.  In the `react_config.rs` revision a reaction
with `max_count = 1` and one dispatcher already returns `Ok(false)` on
its very first call — while still executing the dispatcher — so the
first `N` calls do not all return `Ok(true)` as the claim states. -/
theorem rc_first_call_result_false :
    (rcCall rcOneShot 0).result = .ok false ∧ (rcCall rcOneShot 0).events = [.exit] :=
  ⟨rfl, rfl⟩

/-- C1 (amended).  With `max_count = N > 0` and a non-empty chain, the
counter is incremented by exactly one on every call (never decremented).
In the `reaction_handler.rs` revision, calls `1..N` return `Ok(true)`
and run the full chain, and every later call returns `Ok(false)` without
dispatching.  In the `react_config.rs` revision (assuming every chain
entry builds), calls `1..N-1` return `Ok(true)`, the `N`-th call still
executes the chain but returns `Ok(false)`, and every later call returns
`Ok(false)` without dispatching. -/
theorem reaction_trigger_limit :
    (∀ (r : RHReaction) (N : Nat), r.max_count = some N → 0 < N → r.dispatchers ≠ [] →
      ∀ k, rhCounterAfter r k = k ∧
        (k < N → (rhCall r k).result = .ok true ∧
          (rhCall r k).events = r.dispatchers.map Dispatcher.toDispatch) ∧
        (N ≤ k → (rhCall r k).result = .ok false ∧ (rhCall r k).events = [])) ∧
    (∀ (r : RCReaction) (N : Nat), r.max_count = some N → 0 < N →
      r.allDispatchers ≠ [] → (rcChainStep r.allDispatchers).1 = .ok () →
      ∀ k, rcCounterAfter r k = k ∧
        (k + 1 < N → (rcCall r k).result = .ok true) ∧
        (N ≤ k + 1 → (rcCall r k).result = .ok false) ∧
        (k < N → (rcCall r k).events = (rcChainStep r.allDispatchers).2) ∧
        (N ≤ k → (rcCall r k).events = [])) := by
  constructor
  · intro r N hmax hN hne k
    refine ⟨rhCounterAfter_eq r N hmax hN k, ?_, ?_⟩
    · intro hk
      have hcall : rhCall r k = r.execute k := by
        rw [rhCall, rhCounterAfter_eq r N hmax hN k]
      rw [hcall]
      simp only [RHReaction.execute, hmax, Option.getD_some, if_pos hN]
      rw [if_neg (by omega)]
      have hemp : r.dispatchers.isEmpty = false := by
        cases hd : r.dispatchers with
        | nil => exact absurd hd hne
        | cons a l => rfl
      rw [rhChainRun, hemp]
      exact ⟨rfl, rfl⟩
    · intro hk
      have hcall : rhCall r k = r.execute k := by
        rw [rhCall, rhCounterAfter_eq r N hmax hN k]
      rw [hcall]
      simp only [RHReaction.execute, hmax, Option.getD_some, if_pos hN]
      rw [if_pos (by omega)]
      exact ⟨rfl, rfl⟩
  · intro r N hmax hN hne hok k
    have hcall : rcCall r k = r.execute k := by
      rw [rcCall, rcCounterAfter_eq r N hmax hN k]
    have hemp : r.allDispatchers.isEmpty = false := by
      cases hd : r.allDispatchers with
      | nil => exact absurd hd hne
      | cons a l => rfl
    refine ⟨rcCounterAfter_eq r N hmax hN k, ?_, ?_, ?_, ?_⟩
    · intro hk
      rw [hcall]
      simp only [RCReaction.execute, hmax, Option.getD_some, if_pos hN]
      rw [if_neg (by omega), rcBody, hemp]
      simp only [Bool.false_eq_true, if_false, hok]
      rw [if_neg (by omega)]
    · intro hk
      rw [hcall]
      simp only [RCReaction.execute, hmax, Option.getD_some, if_pos hN]
      by_cases hsup : k + 1 > N
      · rw [if_pos hsup]
      · rw [if_neg hsup, rcBody, hemp]
        simp only [Bool.false_eq_true, if_false, hok]
        rw [if_pos ⟨hN, by omega⟩]
    · intro hk
      rw [hcall]
      simp only [RCReaction.execute, hmax, Option.getD_some, if_pos hN]
      rw [if_neg (by omega), rcBody, hemp]
      simp only [Bool.false_eq_true, if_false, hok]
      split <;> rfl
    · intro hk
      rw [hcall]
      simp only [RCReaction.execute, hmax, Option.getD_some, if_pos hN]
      rw [if_pos (by omega)]

/-- C1 witness: in the `reaction_handler.rs` revision, the second call
of a two-shot reaction still fires, and in the `react_config.rs`
revision the second call of a two-shot reaction returns `Ok(false)`. -/
theorem reaction_trigger_limit_witness :
    ((rhCall rhTwoShot 1).result = .ok true ∧ (rhCall rhTwoShot 1).events = [.exit]) ∧
    (rcCall rcTwoShot 1).result = .ok false :=
  ⟨(reaction_trigger_limit.1 rhTwoShot 2 rfl (by decide) (by decide) 1).2.1 (by decide),
   (reaction_trigger_limit.2 rcTwoShot 2 rfl (by decide) (by decide) rfl 1).2.2.1 (by decide)⟩

/-- C3 counterexample.  A reaction with an empty chain and
`max_count = 1` returns the no-dispatchers error on its first call but
`Ok(false)` — not the error — on its second call, because the limit
check runs before the empty-chain check; so the result does depend on
`max_trigger_count`. -/
theorem empty_chain_second_call_not_error :
    (rhCall rhEmptyOneShot 0).result = .error noDispatchersMsg ∧
    (rhCall rhEmptyOneShot 1).result = .ok false :=
  ⟨rfl, rfl⟩

/-- C3 (amended).  A reaction with an empty dispatch chain never
invokes the dispatch transport, and every call returns either the
no-dispatchers error or the suppressed result `Ok(false)`; every call
that is not suppressed by the trigger limit — in particular every call
when no limit is set — returns the no-dispatchers error.  The same
holds in the config-file revision when both the legacy `dispatcher`
field and the `dispatchers` list are empty. -/
theorem no_dispatchers_spec :
    (∀ (r : RHReaction) (c : Nat), r.dispatchers = [] →
      (r.execute c).events = [] ∧
      ((r.execute c).result = .error noDispatchersMsg ∨ (r.execute c).result = .ok false) ∧
      ((0 < r.max_count.getD 0 → c + 1 ≤ r.max_count.getD 0) →
        (r.execute c).result = .error noDispatchersMsg)) ∧
    (∀ (r : RCReaction) (c : Nat), r.dispatcher = none → r.dispatchers = [] →
      (r.execute c).events = [] ∧
      ((r.execute c).result = .error noDispatchersMsg ∨ (r.execute c).result = .ok false) ∧
      ((0 < r.max_count.getD 0 → c + 1 ≤ r.max_count.getD 0) →
        (r.execute c).result = .error noDispatchersMsg)) := by
  constructor
  · intro r c hd
    have hrun : ∀ x, rhChainRun r x =
        { result := .error noDispatchersMsg, counter := x, events := [] } := by
      intro x
      rw [rhChainRun, hd]
      rfl
    simp only [RHReaction.execute]
    by_cases hm : 0 < r.max_count.getD 0
    · rw [if_pos hm]
      by_cases hc : c + 1 > r.max_count.getD 0
      · rw [if_pos hc]
        exact ⟨rfl, Or.inr rfl, fun h => absurd (h hm) (by omega)⟩
      · rw [if_neg hc, hrun]
        exact ⟨rfl, Or.inl rfl, fun _ => rfl⟩
    · rw [if_neg hm, hrun]
      exact ⟨rfl, Or.inl rfl, fun _ => rfl⟩
  · intro r c hleg hd
    have hall : r.allDispatchers = [] := by
      rw [RCReaction.allDispatchers, hleg, hd]
      rfl
    have hbody : ∀ nc cur mx, rcBody r nc cur mx =
        { result := .error noDispatchersMsg, counter := nc, events := [] } := by
      intro nc cur mx
      rw [rcBody, hall]
      rfl
    simp only [RCReaction.execute]
    by_cases hm : 0 < r.max_count.getD 0
    · rw [if_pos hm]
      by_cases hc : c + 1 > r.max_count.getD 0
      · rw [if_pos hc]
        exact ⟨rfl, Or.inr rfl, fun h => absurd (h hm) (by omega)⟩
      · rw [if_neg hc, hbody]
        exact ⟨rfl, Or.inl rfl, fun _ => rfl⟩
    · rw [if_neg hm, hbody]
      exact ⟨rfl, Or.inl rfl, fun _ => rfl⟩

/-- C3 witness: the amended statement at a concrete empty-chain
reaction with `max_count = 1`, first call. -/
theorem no_dispatchers_spec_witness :
    (rhEmptyOneShot.execute 0).events = [] ∧
    ((rhEmptyOneShot.execute 0).result = .error noDispatchersMsg ∨
      (rhEmptyOneShot.execute 0).result = .ok false) ∧
    ((0 < rhEmptyOneShot.max_count.getD 0 → 0 + 1 ≤ rhEmptyOneShot.max_count.getD 0) →
      (rhEmptyOneShot.execute 0).result = .error noDispatchersMsg) :=
  no_dispatchers_spec.1 rhEmptyOneShot 0 rfl

/-- C4 counterexample.  In the `react_config.rs` revision a chain entry
whose name fails to build (`Unknown dispatcher`) aborts the whole chain
with an error: the later `Exit` dispatcher is never handed to the
transport and the call does not return the fired result. -/
theorem build_failure_halts_chain :
    (rcBadChain.execute 0).result = .error (chars "Unknown dispatcher: Foo") ∧
    (rcBadChain.execute 0).events = [] :=
  ⟨rfl, rfl⟩

/-- C4 (amended).  In the `reaction_handler.rs` revision a
non-suppressed call on a non-empty chain hands every dispatcher of the
chain to the transport, in order, and returns `Ok(true)`.  In the
`react_config.rs` revision, provided every chain entry builds, the
transport receives exactly the successfully parsed commands in chain
order — a parse failure skips only its own entry and a transport
failure never halts the chain — while a build failure aborts the
remaining chain (see the counterexample); non-suppressed calls return
`Ok(true)` or, on the limit-reaching call, `Ok(false)`. -/
theorem chain_execution_spec :
    (∀ (r : RHReaction) (c : Nat), r.dispatchers ≠ [] →
      (0 < r.max_count.getD 0 → c + 1 ≤ r.max_count.getD 0) →
      (r.execute c).result = .ok true ∧
      (r.execute c).events = r.dispatchers.map Dispatcher.toDispatch) ∧
    (∀ ds : List RCDispatcher, (rcChainStep ds).1 = .ok () →
      (rcChainStep ds).2 = ds.filterMap (fun d =>
        match rcBuildDispatchCmd d.name d.args with
        | .ok cmd => (parse_dispatcher cmd).toOption
        | .error _ => none)) ∧
    (∀ (r : RCReaction) (c : Nat),
      (0 < r.max_count.getD 0 → c + 1 ≤ r.max_count.getD 0) →
      r.allDispatchers ≠ [] → (rcChainStep r.allDispatchers).1 = .ok () →
      ((r.execute c).result = .ok true ∨ (r.execute c).result = .ok false) ∧
      (r.execute c).events = (rcChainStep r.allDispatchers).2) := by
  refine ⟨?_, ?_, ?_⟩
  · intro r c hne hns
    have hemp : r.dispatchers.isEmpty = false := by
      cases hd : r.dispatchers with
      | nil => exact absurd hd hne
      | cons a l => rfl
    have hrun : ∀ x, rhChainRun r x =
        { result := .ok true, counter := x,
          events := r.dispatchers.map Dispatcher.toDispatch } := by
      intro x
      rw [rhChainRun, hemp]
      rfl
    simp only [RHReaction.execute]
    by_cases hm : 0 < r.max_count.getD 0
    · rw [if_pos hm, if_neg (by have := hns hm; omega), hrun]
      exact ⟨rfl, rfl⟩
    · rw [if_neg hm, hrun]
      exact ⟨rfl, rfl⟩
  · intro ds
    induction ds with
    | nil => intro _; rfl
    | cons d rest ih =>
        intro h
        cases hb : rcBuildDispatchCmd d.name d.args with
        | error e =>
            rw [rcChainStep, hb] at h
            simp at h
        | ok cmd =>
            rw [rcChainStep, hb] at h ⊢
            cases hp : parse_dispatcher cmd with
            | ok dt =>
                simp only [hp] at h ⊢
                rw [List.filterMap_cons]
                simp only [hb, hp, Except.toOption]
                exact congrArg _ (ih h)
            | error e =>
                simp only [hp] at h ⊢
                rw [List.filterMap_cons]
                simp only [hb, hp, Except.toOption]
                exact ih h
  · intro r c hns hne hok
    have hemp : r.allDispatchers.isEmpty = false := by
      cases hd : r.allDispatchers with
      | nil => exact absurd hd hne
      | cons a l => rfl
    simp only [RCReaction.execute]
    by_cases hm : 0 < r.max_count.getD 0
    · rw [if_pos hm, if_neg (by have := hns hm; omega), rcBody, hemp]
      simp only [Bool.false_eq_true, if_false, hok]
      split
      · exact ⟨Or.inr rfl, rfl⟩
      · exact ⟨Or.inl rfl, rfl⟩
    · rw [if_neg hm, rcBody, hemp]
      simp only [Bool.false_eq_true, if_false, hok]
      split
      · exact ⟨Or.inr rfl, rfl⟩
      · exact ⟨Or.inl rfl, rfl⟩

/-- C4 witness: a chain whose first entry parse-fails still hands the
later `Exit` command to the transport and the call fires. -/
theorem chain_execution_spec_witness :
    (((rcSkipChain.execute 0).result = .ok true ∨
       (rcSkipChain.execute 0).result = .ok false) ∧
      (rcSkipChain.execute 0).events = (rcChainStep rcSkipChain.allDispatchers).2) ∧
    (rcChainStep rcSkipChain.allDispatchers).2 = [.exit] :=
  ⟨chain_execution_spec.2.2 rcSkipChain 0 (by decide) (by decide) rfl, rfl⟩

/-- C5 counterexample.  `Kill-Active-Window` and `kill_active_window`
are equal under the claimed normalization (lower-case, strip `-` and
`_`), yet the first selects the `KillActiveWindow` builder while the
second fails with unknown-dispatcher: the source normalization strips
hyphens but not underscores. -/
theorem underscore_name_not_equivalent :
    specNormalize (chars "Kill-Active-Window") = specNormalize (chars "kill_active_window") ∧
    Dispatcher.build (chars "Kill-Active-Window") [] = .ok .killActiveWindow ∧
    Dispatcher.build (chars "kill_active_window") [] =
      .error (.unknownVariant (chars "kill_active_window")) :=
  ⟨rfl, rfl, rfl⟩

/-- C5 (amended).  The name lookup of `Dispatcher::deserialize` is
case-insensitive and hyphen-insensitive only: two names equal after
lower-casing and removing `-` (underscores are not removed) select the
same builder, or both fail with unknown-dispatcher.  The
`build_dispatch_cmd` lookup is only case-insensitive. -/
theorem dispatcher_name_lookup_normalization :
    (∀ n1 n2 args, rhNormalize n1 = rhNormalize n2 →
      Dispatcher.build n1 args = Dispatcher.build n2 args ∨
      (Dispatcher.build n1 args = .error (.unknownVariant n1) ∧
       Dispatcher.build n2 args = .error (.unknownVariant n2))) ∧
    (∀ n1 n2 args, n1.map Char.toLower = n2.map Char.toLower →
      build_dispatch_cmd n1 args = build_dispatch_cmd n2 args ∨
      (build_dispatch_cmd n1 args = .error (chars "Unknown dispatcher: " ++ n1) ∧
       build_dispatch_cmd n2 args = .error (chars "Unknown dispatcher: " ++ n2))) := by
  constructor
  · intro n1 n2 args h
    rw [Dispatcher.build, Dispatcher.build, h]
    cases hb : buildCoreKnown (rhNormalize n2) args with
    | some r => exact Or.inl rfl
    | none => exact Or.inr ⟨rfl, rfl⟩
  · intro n1 n2 args h
    rw [build_dispatch_cmd, build_dispatch_cmd, h]
    cases hb : bdcKnown (n2.map Char.toLower) args with
    | some r => exact Or.inl rfl
    | none => exact Or.inr ⟨rfl, rfl⟩

/-- C5 witness: `Kill-Active-Window` and `killactivewindow` normalize
alike and produce the same builder result. -/
theorem dispatcher_name_lookup_normalization_witness :
    Dispatcher.build (chars "Kill-Active-Window") [] =
      Dispatcher.build (chars "killactivewindow") [] ∨
    (Dispatcher.build (chars "Kill-Active-Window") [] =
      .error (.unknownVariant (chars "Kill-Active-Window")) ∧
     Dispatcher.build (chars "killactivewindow") [] =
      .error (.unknownVariant (chars "killactivewindow"))) :=
  dispatcher_name_lookup_normalization.1 (chars "Kill-Active-Window")
    (chars "killactivewindow") [] (by decide)

/-- C6 counterexample.  `build_dispatch_cmd("movefocus", [])` does not
return a missing-argument error: it returns a `MoveFocus` command whose
direction is the empty-string placeholder. -/
theorem missing_arg_defaults_to_empty :
    build_dispatch_cmd (chars "movefocus") [] = .ok (.moveFocus (chars "")) :=
  rfl

/-- C6 (amended).  `Dispatcher::deserialize` (the config path) is
atomic: with too few arguments, `move-focus`, `swap-window`,
`workspace`, `move-cursor` and `move-cursor-to-corner` all return a
missing-argument error and no command.  `build_dispatch_cmd` (the
inline-react path) instead fills missing arguments of `movefocus`,
`swapwindow`, `workspace` and `movecursortocorner` with empty-string
placeholders and returns a command; only `movecursor` validates its
arity. -/
theorem missing_argument_spec :
    Dispatcher.build (chars "move-focus") [] = .error (.invalidLength 0) ∧
    Dispatcher.build (chars "swap-window") [] = .error (.invalidLength 0) ∧
    Dispatcher.build (chars "workspace") [] = .error (.invalidLength 0) ∧
    Dispatcher.build (chars "move-cursor") [] = .error (.invalidLength 0) ∧
    Dispatcher.build (chars "move-cursor-to-corner") [] = .error (.invalidLength 0) ∧
    build_dispatch_cmd (chars "movecursor") [] =
      .error (chars "movecursor requires x and y arguments") ∧
    build_dispatch_cmd (chars "movefocus") [] = .ok (.moveFocus (chars "")) ∧
    build_dispatch_cmd (chars "swapwindow") [] = .ok (.swapWindow (chars "")) ∧
    build_dispatch_cmd (chars "workspace") [] = .ok (.workspace (chars "")) ∧
    build_dispatch_cmd (chars "movecursortocorner") [] =
      .ok (.moveCursorToCorner (chars "")) :=
  ⟨rfl, rfl, rfl, rfl, rfl, rfl, rfl, rfl, rfl, rfl⟩

theorem invSlot_slotOf : ∀ t, invSlot (slotOf t) = t := by
  intro t
  cases t with
  | window s => cases s <;> rfl
  | workspace s => cases s <;> rfl
  | group s => cases s <;> rfl
  | monitor => rfl
  | float => rfl
  | fullscreen => rfl
  | layout => rfl
  | config => rfl

theorem slotOf_injective : ∀ a b, slotOf a = slotOf b → a = b := by
  intro a b h
  rw [← invSlot_slotOf a, ← invSlot_slotOf b, h]

/-- C8 counterexample.  Two reactions sharing the `(Config)` event type
cause two handler registrations with the event source, not one:
`start` registers one callback per reaction, not per distinct
event-type/subtype combination. -/
theorem duplicate_subscription_registrations :
    (registrations [rcfgA, rcfgB]).count .configReloaded = 2 :=
  rfl

/-- C8 (amended).  `ReactionManager::start` registers exactly one
handler per registered reaction, in registration order: the number of
registrations on the slot of an event type equals the number of
reactions carrying that event type (so `k` reactions sharing a
combination produce `k` registrations). -/
theorem registrations_per_reaction :
    (∀ reactions : List RHReaction, (registrations reactions).length = reactions.length) ∧
    (∀ (reactions : List RHReaction) (t : EventType),
      (registrations reactions).count (slotOf t) =
        reactions.countP (fun r => decide (r.event_type = t))) := by
  constructor
  · intro rs
    exact List.length_map rs _
  · intro rs t
    induction rs with
    | nil => rfl
    | cons r rest ih =>
        simp only [registrations, List.map_cons, List.count_cons, List.countP_cons] at ih ⊢
        rw [ih]
        congr 1
        by_cases h : r.event_type = t
        · subst h
          simp
        · have hs : slotOf r.event_type ≠ slotOf t := fun hc => h (slotOf_injective _ _ hc)
          simp [h, hs]

/-- Every error of the react-config `build_dispatch_cmd` is the
unknown-dispatcher error naming the dispatcher. -/
theorem rcBuild_error_shape (n : Chars) (a : List Chars) (e : Chars)
    (h : rcBuildDispatchCmd n a = .error e) : e = chars "Unknown dispatcher: " ++ n := by
  rw [rcBuildDispatchCmd] at h
  cases hk : rcKnown n a with
  | some cmd => rw [hk] at h; exact Except.noConfusion h
  | none => rw [hk] at h; exact (Except.error.inj h).symm

/-- Every chain-halting error of the dispatcher loop is an
unknown-dispatcher error. -/
theorem rcChainStep_error_shape :
    ∀ (ds : List RCDispatcher) (e : Chars), (rcChainStep ds).1 = .error e →
      ∃ n, e = chars "Unknown dispatcher: " ++ n := by
  intro ds
  induction ds with
  | nil => intro e h; exact Except.noConfusion h
  | cons d rest ih =>
      intro e h
      cases hb : rcBuildDispatchCmd d.name d.args with
      | error eb =>
          rw [rcChainStep, hb] at h
          exact ⟨d.name, (Except.error.inj h) ▸ rcBuild_error_shape d.name d.args eb hb⟩
      | ok cmd =>
          rw [rcChainStep, hb] at h
          cases hp : parse_dispatcher cmd with
          | ok dt => simp only [hp] at h; exact ih e h
          | error e2 => simp only [hp] at h; exact ih e h

/-- The combined dispatcher list is empty exactly when both the legacy
field and the list are empty. -/
theorem rcAll_nil_iff (r : RCReaction) :
    r.allDispatchers = [] ↔ r.dispatcher = none ∧ r.dispatchers = [] := by
  rw [RCReaction.allDispatchers]
  cases h : r.dispatcher with
  | none => simp
  | some d => simp

/-- `rcBody` on an empty combined list. -/
theorem rcBody_nil (r : RCReaction) (hall : r.allDispatchers = []) (nc cur mx : Nat) :
    rcBody r nc cur mx = { result := .error noDispatchersMsg, counter := nc, events := [] } := by
  rw [rcBody, hall]
  rfl

/-- Total case analysis on the result of a `react_config.rs` `execute`
call. -/
theorem rcBody_result_cases (r : RCReaction) (nc cur mx : Nat) :
    (rcBody r nc cur mx).result = .ok true ∨ (rcBody r nc cur mx).result = .ok false ∨
    ((rcBody r nc cur mx).result = .error noDispatchersMsg ∧ r.allDispatchers = []) ∨
    (∃ n, (rcBody r nc cur mx).result = .error (chars "Unknown dispatcher: " ++ n)) := by
  cases hd : r.allDispatchers with
  | nil =>
      rw [rcBody_nil r hd]
      exact Or.inr (Or.inr (Or.inl ⟨rfl, rfl⟩))
  | cons a l =>
      have hemp : r.allDispatchers.isEmpty = false := by rw [hd]; rfl
      rw [rcBody, hemp]
      simp only [Bool.false_eq_true, if_false]
      cases hcs : (rcChainStep r.allDispatchers).1 with
      | error e =>
          simp only [hcs]
          obtain ⟨n, hn⟩ := rcChainStep_error_shape r.allDispatchers e hcs
          exact Or.inr (Or.inr (Or.inr ⟨n, by rw [hn]⟩))
      | ok u =>
          simp only [hcs]
          split
          · exact Or.inr (Or.inl rfl)
          · exact Or.inl rfl

theorem rcExecute_result_cases (r : RCReaction) (c : Nat) :
    (r.execute c).result = .ok true ∨ (r.execute c).result = .ok false ∨
    ((r.execute c).result = .error noDispatchersMsg ∧ r.allDispatchers = []) ∨
    (∃ n, (r.execute c).result = .error (chars "Unknown dispatcher: " ++ n)) := by
  simp only [RCReaction.execute]
  by_cases hm : 0 < r.max_count.getD 0
  · rw [if_pos hm]
    by_cases hc : c + 1 > r.max_count.getD 0
    · rw [if_pos hc]
      exact Or.inr (Or.inl rfl)
    · rw [if_neg hc]
      exact rcBody_result_cases r (c + 1) (c + 1) _
  · rw [if_neg hm]
    exact rcBody_result_cases r c 0 _

/-- C10.  In the config-file revision, a non-suppressed trigger returns
the no-dispatchers error exactly when both the legacy `dispatcher`
field is `None` and the `dispatchers` list is empty; when the legacy
field is set, its dispatcher heads the combined chain (it is prepended
before all `dispatchers` entries) and the call never returns the
no-dispatchers error. -/
theorem legacy_dispatcher_spec :
    ∀ (r : RCReaction) (c : Nat),
      (0 < r.max_count.getD 0 → c + 1 ≤ r.max_count.getD 0) →
      ((r.execute c).result = .error noDispatchersMsg ↔
        (r.dispatcher = none ∧ r.dispatchers = [])) ∧
      (∀ d, r.dispatcher = some d →
        r.allDispatchers.head? = some { name := d, args := r.args } ∧
        (r.execute c).result ≠ .error noDispatchersMsg) := by
  intro r c hns
  have hiff : (r.execute c).result = .error noDispatchersMsg ↔
      (r.dispatcher = none ∧ r.dispatchers = []) := by
    constructor
    · intro h
      rcases rcExecute_result_cases r c with h1 | h1 | h1 | h1
      · rw [h] at h1
        exact Except.noConfusion h1
      · rw [h] at h1
        exact Except.noConfusion h1
      · exact (rcAll_nil_iff r).mp h1.2
      · obtain ⟨n, hn⟩ := h1
        rw [h] at hn
        have heq : noDispatchersMsg = chars "Unknown dispatcher: " ++ n := Except.error.inj hn
        have hch : ('N' : Char) = 'U' := congrArg (fun l => l.headD ' ') heq
        exact absurd hch (by decide)
    · rintro ⟨hleg, hd⟩
      have hall := (rcAll_nil_iff r).mpr ⟨hleg, hd⟩
      simp only [RCReaction.execute]
      by_cases hm : 0 < r.max_count.getD 0
      · rw [if_pos hm, if_neg (by have := hns hm; omega), rcBody_nil r hall]
      · rw [if_neg hm, rcBody_nil r hall]
  refine ⟨hiff, ?_⟩
  intro d hleg
  refine ⟨?_, ?_⟩
  · rw [RCReaction.allDispatchers, hleg]
    rfl
  · intro h
    have h2 := hiff.mp h
    rw [hleg] at h2
    exact Option.noConfusion h2.1

/-- C10 witness: the legacy-only reaction at its first call. -/
theorem legacy_dispatcher_spec_witness :
    ((rcLegacyOnly.execute 0).result = .error noDispatchersMsg ↔
      (rcLegacyOnly.dispatcher = none ∧ rcLegacyOnly.dispatchers = [])) ∧
    (∀ d, rcLegacyOnly.dispatcher = some d →
      rcLegacyOnly.allDispatchers.head? = some { name := d, args := rcLegacyOnly.args } ∧
      (rcLegacyOnly.execute 0).result ≠ .error noDispatchersMsg) :=
  legacy_dispatcher_spec rcLegacyOnly 0 (by decide)

/-! ### Claim theorems: parsers -/

/-- C2.  `is_window_match`: a `None` filter matches unconditionally; a
class-pattern filter matches exactly when the window class contains the
pattern as a substring; a title-pattern filter matches exactly when the
window title contains the pattern; PID and address filters never match. -/
theorem is_window_match_spec :
    (∀ c t, is_window_match none c t = true) ∧
    (∀ p c t, is_window_match (some (.classRegularExpression p)) c t = true ↔ p <:+: c) ∧
    (∀ p c t, is_window_match (some (.title p)) c t = true ↔ p <:+: t) ∧
    (∀ n c t, is_window_match (some (.processId n)) c t = false) ∧
    (∀ a c t, is_window_match (some (.address a)) c t = false) := by
  refine ⟨fun c t => rfl, fun p c t => ?_, fun p c t => ?_, fun n c t => rfl, fun a c t => rfl⟩
  · exact strContains_iff_infix c p
  · exact strContains_iff_infix t p

/-- C7 counterexample.  The workspace specifier parser maps `"0"` to the
special workspace, not to an absolute id `0` as the claim states. -/
theorem parseWorkspaceIdentifier_zero_not_id :
    parseWorkspaceIdentifier (chars "0") = .ok (.special none) :=
  rfl

/-- C7 (amended).  `ParsedWorkspaceIdentifier::from_str`: an integer
parse succeeds first and yields `Id(n)` except for `0`, which yields the
special workspace; `right:N` / `left:N` yield `Relative(±N)`; the
literals `previous` / `empty` yield `Previous` / `Empty`; `name:X`
yields `Name(X)`; strings matching none of these forms yield an
unknown-workspace-identifier error.  The inline workspace parsing in
`parse_dispatcher` maps every integer, including `0`, to `Id(n)`. -/
theorem parseWorkspaceIdentifier_spec :
    (∀ s n, parseI32 s = some n →
      parseWorkspaceIdentifier s =
        if n = 0 then .ok (.special none) else .ok (.id n)) ∧
    (∀ t n, parseI32 t = some n →
      parseWorkspaceIdentifier (chars "right:" ++ t) = .ok (.relative n)) ∧
    (∀ t n, parseI32 t = some n →
      parseWorkspaceIdentifier (chars "left:" ++ t) = .ok (.relative (-n))) ∧
    parseWorkspaceIdentifier (chars "previous") = .ok .previous ∧
    parseWorkspaceIdentifier (chars "empty") = .ok .empty ∧
    (∀ t, parseWorkspaceIdentifier (chars "name:" ++ t) = .ok (.name t)) ∧
    (∀ s, parseI32 s = none →
      stripPrefix (chars "right:") s = none →
      stripPrefix (chars "left:") s = none →
      stripPrefix (chars "name:") s = none →
      s ≠ chars "previous" → s ≠ chars "empty" →
      parseWorkspaceIdentifier s = .error (chars "Unknown workspace identifier: " ++ s)) ∧
    (∀ s n, parseI32 s = some n → parseWorkspaceFull s = .ok (.id n)) := by
  refine ⟨?_, ?_, ?_, rfl, rfl, ?_, ?_, ?_⟩
  · intro s n h
    simp only [parseWorkspaceIdentifier, h]
  · intro t n h
    have h1 : parseI32 (chars "right:" ++ t) = none := rfl
    have h2 : stripPrefix (chars "right:") (chars "right:" ++ t) = some t := rfl
    simp only [parseWorkspaceIdentifier, h1, h2, h]
  · intro t n h
    have h1 : parseI32 (chars "left:" ++ t) = none := rfl
    have h2 : stripPrefix (chars "right:") (chars "left:" ++ t) = none := rfl
    have h3 : stripPrefix (chars "left:") (chars "left:" ++ t) = some t := rfl
    simp only [parseWorkspaceIdentifier, h1, h2, h3, h]
  · intro t
    have h1 : parseI32 (chars "name:" ++ t) = none := rfl
    have h2 : stripPrefix (chars "right:") (chars "name:" ++ t) = none := rfl
    have h3 : stripPrefix (chars "left:") (chars "name:" ++ t) = none := rfl
    have h4 : (chars "name:" ++ t) ≠ chars "previous" := fun h => by
      have hc : ('n' : Char) = 'p' := congrArg (fun l => l.headD ' ') h
      exact absurd hc (by decide)
    have h5 : (chars "name:" ++ t) ≠ chars "empty" := fun h => by
      have hc : ('n' : Char) = 'e' := congrArg (fun l => l.headD ' ') h
      exact absurd hc (by decide)
    have h6 : stripPrefix (chars "name:") (chars "name:" ++ t) = some t := rfl
    simp only [parseWorkspaceIdentifier, h1, h2, h3, if_neg h4, if_neg h5, h6]
  · intro s h hr hl hn hp he
    simp only [parseWorkspaceIdentifier, h, hr, hl, if_neg hp, if_neg he, hn]
  · intro s n h
    simp only [parseWorkspaceFull, h]

/-- C7 witness: the spec scenario `parse_workspace_specifier("left:2")`
yields `RelativeOffset(-2)`. -/
theorem parseWorkspaceIdentifier_spec_witness :
    parseWorkspaceIdentifier (chars "left:2") = .ok (.relative (-2)) :=
  parseWorkspaceIdentifier_spec.2.2.1 (chars "2") 2 (by decide)

/-- C9.  Rendering a window matcher to its canonical prefixed string via
`WindowId::to_identifier_string` and parsing it back with
`ParsedWindowIdentifier::from_str` yields the original matcher. -/
theorem window_matcher_roundtrip (m : WindowIdentifier) (hm : pidInRange m = true) :
    (matcherWindowId m).to_identifier_string = some (canonicalMatcherString m) ∧
    parseWindowIdentifier (canonicalMatcherString m) = .ok m := by
  cases m with
  | classRegularExpression c => exact ⟨rfl, rfl⟩
  | title t => exact ⟨rfl, rfl⟩
  | address a => exact ⟨rfl, rfl⟩
  | processId p =>
      refine ⟨rfl, ?_⟩
      have hp : p < 2 ^ 32 := by simpa [pidInRange] using hm
      have h1 : stripPrefix (chars "class:") (chars "pid:" ++ natDecimal p) = none := rfl
      have h2 : stripPrefix (chars "title:") (chars "pid:" ++ natDecimal p) = none := rfl
      have h3 : stripPrefix (chars "pid:") (chars "pid:" ++ natDecimal p) = some (natDecimal p) :=
        rfl
      simp only [canonicalMatcherString, parseWindowIdentifier, h1, h2, h3,
        parseU32_natDecimal p hp]

/-- C9 witness: round-trip at the concrete matcher `pid:1234`. -/
theorem window_matcher_roundtrip_witness :
    (matcherWindowId (.processId 1234)).to_identifier_string =
      some (canonicalMatcherString (.processId 1234)) ∧
    parseWindowIdentifier (canonicalMatcherString (.processId 1234)) =
      .ok (.processId 1234) :=
  window_matcher_roundtrip (.processId 1234) (by decide)

end HydeIpc
